import Mathlib

/- Verification development for a chat-bot command handler backed by a JSON-file
record store, an external duplicate-detection oracle, and a per-channel pending
confirmation gate.  The Go source is embedded shallowly: the persisted JSON file
is modelled as the `List String` it contains, the oracle's HTTP round trip is a
parameter carrying its outcome, and `encoding/json` decoding of the oracle body
is modelled by an explicit `Json` tree plus a decode function mirroring Go's
struct unmarshalling (absent fields keep their zero value, a type mismatch is
recorded as an error while decoding continues, the first error is returned).
File writes are modelled as always succeeding; reply texts are represented by a
`Reply` datatype identifying which message the handler sends. -/

/-- Model of JSON values as decoded by Go's `encoding/json`. Numbers are kept
exactly (as rationals); no arithmetic is ever performed on them. -/
inductive Json where
  | null
  | bool (b : Bool)
  | num (q : Rat)
  | str (s : String)
  | arr (elems : List Json)
  | obj (fields : List (String × Json))

/-- Model of the Go struct `DuplicateCheckResponse` with JSON tags
`is_duplicate`, `matched_name`, `similarity_score`. -/
structure DuplicateCheckResponse where
  IsDuplicate : Bool
  MatchedName : String
  SimilarityScore : Rat
deriving DecidableEq, Repr

/-- Zero value of `DuplicateCheckResponse`, as produced by Go before any JSON
field is decoded into the struct. -/
def zeroResp : DuplicateCheckResponse :=
  { IsDuplicate := false, MatchedName := "", SimilarityScore := 0 }

/-- Model of Go's per-character lowercasing `strings.ToLower` (the inputs in
this program are ASCII commands). -/
def strToLower (s : String) : String :=
  String.mk (s.data.map Char.toLower)

/-- Go `encoding/json` field-name matching: an object key selects a struct
field when it equals the field's tag exactly or up to case. -/
def keyMatches (k tag : String) : Bool :=
  k == tag || strToLower k == strToLower tag

/-- Go `encoding/json` keeps the first decode error and continues decoding. -/
def keepFirst (e : Option String) (msg : String) : Option String :=
  match e with
  | some m => some m
  | none => some msg

/-- Go `encoding/json` keeps the first of two optional errors. -/
def keepFirstOpt (a b : Option String) : Option String :=
  match a with
  | some m => some m
  | none => b

/-- Decoding of one object field into the `DuplicateCheckResponse` struct,
mirroring Go: `null` leaves the field untouched, a matching primitive sets it,
any other value records a type error (first error kept) and decoding goes on;
keys matching no tag are ignored. -/
def setRespField (acc : DuplicateCheckResponse × Option String) (kv : String × Json) :
    DuplicateCheckResponse × Option String :=
  if keyMatches kv.1 "is_duplicate" then
    match kv.2 with
    | Json.null => acc
    | Json.bool b => ({ acc.1 with IsDuplicate := b }, acc.2)
    | _ => (acc.1, keepFirst acc.2 "cannot unmarshal value into field is_duplicate of type bool")
  else if keyMatches kv.1 "matched_name" then
    match kv.2 with
    | Json.null => acc
    | Json.str v => ({ acc.1 with MatchedName := v }, acc.2)
    | _ => (acc.1, keepFirst acc.2 "cannot unmarshal value into field matched_name of type string")
  else if keyMatches kv.1 "similarity_score" then
    match kv.2 with
    | Json.null => acc
    | Json.num q => ({ acc.1 with SimilarityScore := q }, acc.2)
    | _ => (acc.1, keepFirst acc.2 "cannot unmarshal value into field similarity_score of type float64")
  else acc

/-- Decoding of a JSON value into a `DuplicateCheckResponse` starting from the
current field values, mirroring Go struct unmarshalling: `null` is a no-op, an
object decodes field by field, anything else is a type error. -/
def decodeRespInto (current : DuplicateCheckResponse) : Json → DuplicateCheckResponse × Option String
  | Json.null => (current, none)
  | Json.obj fields => fields.foldl setRespField (current, none)
  | _ => (current, some "cannot unmarshal value into field result of type DuplicateCheckResponse")

/-- One field of the outer response object: a key matching `result` is decoded
into the nested struct, any other key is ignored. -/
def apiRespStep (acc : DuplicateCheckResponse × Option String) (kv : String × Json) :
    DuplicateCheckResponse × Option String :=
  if keyMatches kv.1 "result" then
    let d := decodeRespInto acc.1 kv.2
    (d.1, keepFirstOpt acc.2 d.2)
  else acc

/-- Model of `json.Unmarshal(body, &apiResp)` for the anonymous Go struct
`struct { Result DuplicateCheckResponse \x60json:"result"\x60 }` in
`CheckForDuplicate`: the body must be a JSON object (or `null`); the key
matching `result` is decoded into the nested struct; the first type error, if
any, is returned, otherwise the decoded struct (zero-valued where no field was
present). -/
def unmarshalApiResp : Json → Except String DuplicateCheckResponse
  | Json.null => Except.ok zeroResp
  | Json.obj fields =>
    let r := fields.foldl apiRespStep (zeroResp, none)
    match r.2 with
    | some msg => Except.error msg
    | none => Except.ok r.1
  | _ => Except.error "cannot unmarshal value into apiResp struct"

/-- Failure modes of the duplicate check, mirroring the error returns of the Go
`CheckForDuplicate`: the initial `GetAllRestaurants` read failing, the HTTP
round trip failing, or the response body failing to decode. -/
inductive OracleError where
  | storageUnavailable
  | transportFailure
  | decodeFailure (msg : String)
deriving DecidableEq, Repr

/-- Model of Go `CheckForDuplicate`: read the restaurant list (propagating a
read error), perform the HTTP POST (propagating a transport error; the body is
`none` when it is not syntactically valid JSON), then unmarshal the body.
`storageRead` and `post` carry the outcomes of the two external effects. -/
def CheckForDuplicate (storageRead : Except String (List String))
    (post : Except String (Option Json)) : Except OracleError DuplicateCheckResponse :=
  match storageRead with
  | Except.error _ => Except.error OracleError.storageUnavailable
  | Except.ok _restaurants =>
    match post with
    | Except.error _ => Except.error OracleError.transportFailure
    | Except.ok none => Except.error (OracleError.decodeFailure "body is not valid JSON")
    | Except.ok (some body) =>
      match unmarshalApiResp body with
      | Except.error msg => Except.error (OracleError.decodeFailure msg)
      | Except.ok r => Except.ok r

/-- Model of Go `ForceAddRestaurant`: append unconditionally and return the new
store contents together with the returned count `len(restaurants)`. -/
def ForceAddRestaurant (restaurants : List String) (name : String) : List String × Nat :=
  let restaurants2 := restaurants ++ [name]
  (restaurants2, restaurants2.length)

/-- Model of Go `AddRestaurant(name) (int, *DuplicateCheckResponse, error)`:
run the duplicate check (whose outcome is the parameter `check`); on error
propagate it; on a duplicate verdict return the verdict without writing; else
force-add.  The first component of the ok-tuple is the store contents after the
call. -/
def AddRestaurant (restaurants : List String) (name : String)
    (check : Except OracleError DuplicateCheckResponse) :
    Except OracleError (List String × Nat × Option DuplicateCheckResponse) :=
  match check with
  | Except.error e => Except.error e
  | Except.ok duplicateInfo =>
    if duplicateInfo.IsDuplicate then
      Except.ok (restaurants, 0, some duplicateInfo)
    else
      let fa := ForceAddRestaurant restaurants name
      Except.ok (fa.1, fa.2, none)

/-- Error value of the Go `RemoveRestaurant` when no record matches. -/
inductive DBError where
  | notFound (name : String)
deriving DecidableEq, Repr

/-- The scan loop of Go `RemoveRestaurant`: walk the list, mark `found` on any
exact match and keep every non-matching element, in order. -/
def removeScan (restaurants : List String) (name : String) : Bool × List String :=
  restaurants.foldl
    (fun acc r => if r == name then (true, acc.2) else (acc.1, acc.2 ++ [r]))
    (false, [])

/-- Model of Go `RemoveRestaurant`: returns the store contents after the call,
the returned count, and the error if any.  When nothing matched, the file is
not rewritten and the count of the untouched list is returned with the
not-found error. -/
def RemoveRestaurant (restaurants : List String) (name : String) :
    List String × Nat × Option DBError :=
  let scan := removeScan restaurants name
  if scan.1 then (scan.2, scan.2.length, none)
  else (restaurants, restaurants.length, some (DBError.notFound name))

/-- State for a pending duplicate confirmation, mirroring the Go struct
`PendingConfirmation{NewName, MatchedName}`. -/
structure PendingConfirmation where
  NewName : String
  MatchedName : String
deriving DecidableEq, Repr

/-- Model of the Go map `pendingConfirmations`, keyed by channel ID. -/
abbrev PendingMap := List (String × PendingConfirmation)

/-- Model of the Go map assignment `pendingConfirmations[k] = v`: the previous
entry for `k`, if any, is overwritten. -/
def mapInsert (m : PendingMap) (k : String) (v : PendingConfirmation) : PendingMap :=
  (k, v) :: m.filter (fun p => !(p.1 == k))

/-- Model of the Go `delete(pendingConfirmations, k)`. -/
def mapDelete (m : PendingMap) (k : String) : PendingMap :=
  m.filter (fun p => !(p.1 == k))

/-- Character-list prefix test underlying the string prefix test. -/
def listStarts : List Char → List Char → Bool
  | _, [] => true
  | [], _ :: _ => false
  | c :: cs, d :: ds => c == d && listStarts cs ds

/-- Model of Go `strings.HasPrefix`. -/
def strStartsWith (s p : String) : Bool :=
  listStarts s.data p.data

/-- Model of Go `strings.HasSuffix` (compare the reversed character lists). -/
def strEndsWith (s p : String) : Bool :=
  listStarts s.data.reverse p.data.reverse

/-- Model of Go `strings.TrimPrefix`: drop the prefix when present, else return
the string unchanged. -/
def strTrimStart (s p : String) : String :=
  if strStartsWith s p then String.mk (s.data.drop p.data.length) else s

/-- Model of Go `strings.TrimSuffix`: drop the suffix when present, else return
the string unchanged. -/
def strTrimEnd (s p : String) : String :=
  if strEndsWith s p then String.mk (s.data.take (s.data.length - p.data.length)) else s

/-- The interesting part of the inbound `discordgo.MessageCreate` event. -/
structure MessageCreate where
  authorID : String
  channelID : String
  content : String

/-- The interesting part of the `discordgo.Session`: the bot's own user ID. -/
structure Session where
  selfUserID : String

/-- The reply the handler sends, identified structurally (the exact wording of
the Go format strings is presentation and is not modelled). -/
inductive Reply where
  | pong
  | listing (names : List String)
  | noneFound
  | mlOk
  | mlFailed
  | provideRemoveName
  | removeFailed (name : String)
  | removed (name : String) (count : Nat)
  | provideAddName
  | addFailed
  | duplicatePrompt (newName matchedName : String)
  | added (name : String) (count : Nat)
  | willNotAdd (name : String)
  | forceAdded (name : String) (count : Nat)
  | promptYesNo
deriving DecidableEq, Repr

/-- Everything observable after one `HandleMessage` call: the store contents,
the pending-confirmation map, the replies sent to the channel, and whether the
duplicate-check (oracle client) was invoked. -/
structure HandlerResult where
  restaurants : List String
  pending : PendingMap
  replies : List Reply
  oracleCalled : Bool
deriving DecidableEq, Repr

/-- Model of the Go `HandleMessage` method: ignore the bot's own messages;
while a confirmation is pending in the channel, treat the (lowercased) content
as a confirm-accept, confirm-reject, or re-prompt; otherwise dispatch the
ordinary commands in source order.  `oracle` carries the outcome of the
duplicate check were it invoked, `mlHealth` the outcome of the ML health probe
were it invoked. -/
def HandleMessage (s : Session) (restaurants : List String) (pending : PendingMap)
    (m : MessageCreate) (oracle : Except OracleError DuplicateCheckResponse)
    (mlHealth : Except String Unit) : HandlerResult :=
  if m.authorID == s.selfUserID then
    { restaurants := restaurants, pending := pending, replies := [], oracleCalled := false }
  else
    match List.lookup m.channelID pending with
    | some confirmation =>
      if strToLower m.content == "!yes" then
        { restaurants := restaurants, pending := mapDelete pending m.channelID,
          replies := [Reply.willNotAdd confirmation.NewName], oracleCalled := false }
      else if strToLower m.content == "!no" then
        let fa := ForceAddRestaurant restaurants confirmation.NewName
        { restaurants := fa.1, pending := mapDelete pending m.channelID,
          replies := [Reply.forceAdded confirmation.NewName fa.2], oracleCalled := false }
      else
        { restaurants := restaurants, pending := pending,
          replies := [Reply.promptYesNo], oracleCalled := false }
    | none =>
      if m.content == "!ping" then
        { restaurants := restaurants, pending := pending,
          replies := [Reply.pong], oracleCalled := false }
      else if m.content == "!list" then
        if restaurants.length == 0 then
          { restaurants := restaurants, pending := pending,
            replies := [Reply.noneFound], oracleCalled := false }
        else
          { restaurants := restaurants, pending := pending,
            replies := [Reply.listing restaurants], oracleCalled := false }
      else if m.content == "!ml" then
        match mlHealth with
        | Except.ok _ =>
          { restaurants := restaurants, pending := pending,
            replies := [Reply.mlOk], oracleCalled := false }
        | Except.error _ =>
          { restaurants := restaurants, pending := pending,
            replies := [Reply.mlFailed], oracleCalled := false }
      else if strStartsWith m.content "!remove \"" && strEndsWith m.content "\"" then
        let restaurantName := strTrimEnd (strTrimStart m.content "!remove \"") "\""
        if restaurantName == "" then
          { restaurants := restaurants, pending := pending,
            replies := [Reply.provideRemoveName], oracleCalled := false }
        else
          let rr := RemoveRestaurant restaurants restaurantName
          match rr.2.2 with
          | some _ =>
            { restaurants := rr.1, pending := pending,
              replies := [Reply.removeFailed restaurantName], oracleCalled := false }
          | none =>
            { restaurants := rr.1, pending := pending,
              replies := [Reply.removed restaurantName rr.2.1], oracleCalled := false }
      else if strStartsWith m.content "!add \"" && strEndsWith m.content "\"" then
        let restaurantName := strTrimEnd (strTrimStart m.content "!add \"") "\""
        if restaurantName == "" then
          { restaurants := restaurants, pending := pending,
            replies := [Reply.provideAddName], oracleCalled := false }
        else
          match AddRestaurant restaurants restaurantName oracle with
          | Except.error _ =>
            { restaurants := restaurants, pending := pending,
              replies := [Reply.addFailed], oracleCalled := true }
          | Except.ok (db2, _count, some dup) =>
            { restaurants := db2,
              pending := mapInsert pending m.channelID
                { NewName := restaurantName, MatchedName := dup.MatchedName },
              replies := [Reply.duplicatePrompt restaurantName dup.MatchedName],
              oracleCalled := true }
          | Except.ok (db2, count, none) =>
            { restaurants := db2, pending := pending,
              replies := [Reply.added restaurantName count], oracleCalled := true }
      else
        { restaurants := restaurants, pending := pending, replies := [], oracleCalled := false }

/-- Appending strings appends their character data. -/
lemma strAppendData (s t : String) : (s ++ t).data = s.data ++ t.data := by
  cases s
  cases t
  rfl

/-- Character data of the content of an `add` command built from a name. -/
lemma addCmdData (name : String) :
    ("!add \"" ++ name ++ "\"").data
      = '!' :: 'a' :: 'd' :: 'd' :: ' ' :: '"' :: (name.data ++ ['"']) := by
  cases name
  rfl

/-- Lowercasing preserves the number of characters. -/
lemma strToLowerLength (s : String) : (strToLower s).data.length = s.data.length := by
  simp [strToLower]

/-- A nonempty string has at least one character. -/
lemma dataLengthPos (s : String) (h : s ≠ "") : 1 ≤ s.data.length := by
  cases s with
  | mk l =>
    cases l with
    | nil => exact absurd rfl h
    | cons c cs => simp

/-- The empty pattern is a prefix of anything. -/
@[simp] lemma listStartsNil (l : List Char) : listStarts l [] = true := by
  cases l <;> rfl

/-- A true prefix test bounds the pattern's length. -/
lemma listStartsLength (p : List Char) :
    ∀ l : List Char, listStarts l p = true → p.length ≤ l.length := by
  induction p with
  | nil => intro l _; simp
  | cons d ds ih =>
    intro l h
    cases l with
    | nil => simp [listStarts] at h
    | cons c cs =>
      simp only [listStarts, Bool.and_eq_true] at h
      have := ih cs h.2
      simp
      omega

/-- A true string prefix test bounds the pattern's length. -/
lemma strStartsWithLength (s p : String) (h : strStartsWith s p = true) :
    p.data.length ≤ s.data.length := by
  exact listStartsLength p.data s.data h

/-- The add command starts with its own command prefix. -/
lemma addCmdStarts (name : String) :
    strStartsWith ("!add \"" ++ name ++ "\"") "!add \"" = true := by
  unfold strStartsWith
  rw [addCmdData]
  have hp : ("!add \"" : String).data = ['!', 'a', 'd', 'd', ' ', '"'] := rfl
  rw [hp]
  simp [listStarts]

/-- The add command does not carry the remove command prefix. -/
lemma addCmdNotRemove (name : String) :
    strStartsWith ("!add \"" ++ name ++ "\"") "!remove \"" = false := by
  cases name
  rfl

/-- The add command ends with a double quote. -/
lemma addCmdEnds (name : String) :
    strEndsWith ("!add \"" ++ name ++ "\"") "\"" = true := by
  unfold strEndsWith
  rw [addCmdData]
  simp [listStarts]

/-- Stripping the command prefix and the closing quote from an add command
recovers the name. -/
lemma addCmdTrim (name : String) :
    strTrimEnd (strTrimStart ("!add \"" ++ name ++ "\"") "!add \"") "\"" = name := by
  have h1 : strTrimStart ("!add \"" ++ name ++ "\"") "!add \"" = String.mk (name.data ++ ['"']) := by
    unfold strTrimStart
    rw [addCmdStarts, addCmdData]
    rfl
  rw [h1]
  unfold strTrimEnd strEndsWith
  have h2 : listStarts (String.mk (name.data ++ ['"'])).data.reverse ("\"").data.reverse = true := by
    simp [listStarts]
  rw [h2]
  cases name with
  | mk l =>
    simp

/-- The add command differs from any short literal command by length. -/
lemma addCmdLength (name : String) :
    ("!add \"" ++ name ++ "\"").data.length = 7 + name.data.length := by
  rw [addCmdData]
  simp
  omega

/-- The add command on a nonempty name is not the ping command. -/
lemma addCmdNePing (name : String) (h : name ≠ "") : ("!add \"" ++ name ++ "\"") ≠ "!ping" := by
  intro he
  have hlen : ("!add \"" ++ name ++ "\"").data.length = ("!ping" : String).data.length := by
    rw [he]
  rw [addCmdLength] at hlen
  have h1 := dataLengthPos name h
  have h2 : ("!ping" : String).data.length = 5 := rfl
  omega

/-- The add command on a nonempty name is not the list command. -/
lemma addCmdNeList (name : String) (h : name ≠ "") : ("!add \"" ++ name ++ "\"") ≠ "!list" := by
  intro he
  have hlen : ("!add \"" ++ name ++ "\"").data.length = ("!list" : String).data.length := by
    rw [he]
  rw [addCmdLength] at hlen
  have h1 := dataLengthPos name h
  have h2 : ("!list" : String).data.length = 5 := rfl
  omega

/-- The add command on a nonempty name is not the ml command. -/
lemma addCmdNeMl (name : String) (h : name ≠ "") : ("!add \"" ++ name ++ "\"") ≠ "!ml" := by
  intro he
  have hlen : ("!add \"" ++ name ++ "\"").data.length = ("!ml" : String).data.length := by
    rw [he]
  rw [addCmdLength] at hlen
  have h1 := dataLengthPos name h
  have h2 : ("!ml" : String).data.length = 3 := rfl
  omega

/-- Unequal strings compare `false` under the boolean equality test. -/
lemma beqFalseOfNe {a b : String} (h : a ≠ b) : (a == b) = false := by
  simp [h]

/-- Deleting a key from the pending map removes its entry. -/
lemma lookupMapDelete (m : PendingMap) (k : String) :
    List.lookup k (mapDelete m k) = none := by
  induction m with
  | nil => rfl
  | cons p m ih =>
    by_cases h : p.1 = k
    · simpa [mapDelete, List.filter_cons, h] using ih
    · have hb : (p.1 == k) = false := beqFalseOfNe h
      have hb2 : (k == p.1) = false := beqFalseOfNe (fun he => h he.symm)
      simp only [mapDelete, List.filter_cons, hb, Bool.not_false, if_pos]
      simpa [List.lookup, hb2, mapDelete] using ih

/-- Inserting a key into the pending map makes it the entry found for that
key. -/
lemma lookupMapInsert (m : PendingMap) (k : String) (v : PendingConfirmation) :
    List.lookup k (mapInsert m k v) = some v := by
  simp [mapInsert, List.lookup]

/-- Characterization of the scan loop of `RemoveRestaurant`, for any starting
accumulator: the flag records whether any element matched and the kept list is
the non-matching elements appended in order. -/
lemma removeScanFoldl (name : String) :
    ∀ (rs : List String) (b : Bool) (acc : List String),
      rs.foldl (fun acc r => if r == name then (true, acc.2) else (acc.1, acc.2 ++ [r])) (b, acc)
        = (b || rs.any (fun r => r == name), acc ++ rs.filter (fun r => !(r == name))) := by
  intro rs
  induction rs with
  | nil => intro b acc; simp
  | cons r rs ih =>
    intro b acc
    rw [List.foldl_cons]
    by_cases h : r = name
    · have hb : (r == name) = true := by simp [h]
      rw [if_pos hb, ih]
      simp [hb]
    · have hb : (r == name) = false := beqFalseOfNe h
      rw [if_neg (by simp [hb]), ih]
      simp [hb]

/-- The scan loop returns the any-match flag and the filtered list. -/
lemma removeScanEq (rs : List String) (name : String) :
    removeScan rs name
      = (rs.any (fun r => r == name), rs.filter (fun r => !(r == name))) := by
  simpa [removeScan] using removeScanFoldl name rs false []

/-- Evaluation of the handler on an add command when the duplicate check
fails: the error is surfaced and nothing changes. -/
lemma handleAddError (s : Session) (rs : List String) (pend : PendingMap)
    (m : MessageCreate) (e : OracleError) (ml : Except String Unit) (name : String)
    (hself : m.authorID ≠ s.selfUserID)
    (hpend : List.lookup m.channelID pend = none)
    (hcontent : m.content = "!add \"" ++ name ++ "\"")
    (hname : name ≠ "") :
    HandleMessage s rs pend m (Except.error e) ml =
      { restaurants := rs, pending := pend, replies := [Reply.addFailed], oracleCalled := true } := by
  have h1 : (m.authorID == s.selfUserID) = false := beqFalseOfNe hself
  have h2 := beqFalseOfNe (addCmdNePing name hname)
  have h3 := beqFalseOfNe (addCmdNeList name hname)
  have h4 := beqFalseOfNe (addCmdNeMl name hname)
  have h5 := addCmdNotRemove name
  have h6 := addCmdStarts name
  have h7 := addCmdEnds name
  have h8 := addCmdTrim name
  have h9 : (name == "") = false := beqFalseOfNe hname
  simp only [HandleMessage, hcontent, h1, hpend, h2, h3, h4, h5, h6, h7, h8, h9,
    Bool.false_eq_true, if_false, Bool.false_and, Bool.and_self, Bool.true_and,
    AddRestaurant]
  simp

/-- Evaluation of the handler on an add command when the oracle verdict is a
duplicate: nothing is committed, a pending confirmation is installed, and the
confirmation prompt is sent. -/
lemma handleAddDup (s : Session) (rs : List String) (pend : PendingMap)
    (m : MessageCreate) (v : DuplicateCheckResponse) (ml : Except String Unit) (name : String)
    (hself : m.authorID ≠ s.selfUserID)
    (hpend : List.lookup m.channelID pend = none)
    (hcontent : m.content = "!add \"" ++ name ++ "\"")
    (hname : name ≠ "")
    (hdup : v.IsDuplicate = true) :
    HandleMessage s rs pend m (Except.ok v) ml =
      { restaurants := rs,
        pending := mapInsert pend m.channelID { NewName := name, MatchedName := v.MatchedName },
        replies := [Reply.duplicatePrompt name v.MatchedName], oracleCalled := true } := by
  have h1 : (m.authorID == s.selfUserID) = false := beqFalseOfNe hself
  have h2 := beqFalseOfNe (addCmdNePing name hname)
  have h3 := beqFalseOfNe (addCmdNeList name hname)
  have h4 := beqFalseOfNe (addCmdNeMl name hname)
  have h5 := addCmdNotRemove name
  have h6 := addCmdStarts name
  have h7 := addCmdEnds name
  have h8 := addCmdTrim name
  have h9 : (name == "") = false := beqFalseOfNe hname
  simp only [HandleMessage, hcontent, h1, hpend, h2, h3, h4, h5, h6, h7, h8, h9,
    Bool.false_eq_true, if_false, Bool.false_and, Bool.and_self, Bool.true_and,
    AddRestaurant, hdup, if_true]

/-- Evaluation of the handler on an add command when the oracle verdict is not
a duplicate: the candidate is committed and the added reply carries the new
count. -/
lemma handleAddOk (s : Session) (rs : List String) (pend : PendingMap)
    (m : MessageCreate) (v : DuplicateCheckResponse) (ml : Except String Unit) (name : String)
    (hself : m.authorID ≠ s.selfUserID)
    (hpend : List.lookup m.channelID pend = none)
    (hcontent : m.content = "!add \"" ++ name ++ "\"")
    (hname : name ≠ "")
    (hdup : v.IsDuplicate = false) :
    HandleMessage s rs pend m (Except.ok v) ml =
      { restaurants := rs ++ [name], pending := pend,
        replies := [Reply.added name (rs.length + 1)], oracleCalled := true } := by
  have h1 : (m.authorID == s.selfUserID) = false := beqFalseOfNe hself
  have h2 := beqFalseOfNe (addCmdNePing name hname)
  have h3 := beqFalseOfNe (addCmdNeList name hname)
  have h4 := beqFalseOfNe (addCmdNeMl name hname)
  have h5 := addCmdNotRemove name
  have h6 := addCmdStarts name
  have h7 := addCmdEnds name
  have h8 := addCmdTrim name
  have h9 : (name == "") = false := beqFalseOfNe hname
  simp only [HandleMessage, hcontent, h1, hpend, h2, h3, h4, h5, h6, h7, h8, h9,
    Bool.false_eq_true, if_false, Bool.false_and, Bool.and_self, Bool.true_and,
    AddRestaurant, hdup, ForceAddRestaurant]
  simp

/-- Evaluation of the handler when a confirmation is pending and the content
lowercases to the confirm-accept input: the pending entry is deleted, the
acknowledgment is sent, and nothing is written to the store. -/
lemma handleYes (s : Session) (rs : List String) (pend : PendingMap)
    (m : MessageCreate) (c : PendingConfirmation)
    (o : Except OracleError DuplicateCheckResponse) (ml : Except String Unit)
    (hself : m.authorID ≠ s.selfUserID)
    (hpend : List.lookup m.channelID pend = some c)
    (hyes : strToLower m.content = "!yes") :
    HandleMessage s rs pend m o ml =
      { restaurants := rs, pending := mapDelete pend m.channelID,
        replies := [Reply.willNotAdd c.NewName], oracleCalled := false } := by
  have h1 : (m.authorID == s.selfUserID) = false := beqFalseOfNe hself
  have hy : (strToLower m.content == "!yes") = true := by rw [hyes]; rfl
  simp only [HandleMessage, h1, Bool.false_eq_true, if_false, hpend, hy, if_true]

/-- Evaluation of the handler when a confirmation is pending and the content
lowercases to the confirm-reject input: the pending entry is deleted and the
originally proposed name is appended unconditionally, with no oracle call. -/
lemma handleNo (s : Session) (rs : List String) (pend : PendingMap)
    (m : MessageCreate) (c : PendingConfirmation)
    (o : Except OracleError DuplicateCheckResponse) (ml : Except String Unit)
    (hself : m.authorID ≠ s.selfUserID)
    (hpend : List.lookup m.channelID pend = some c)
    (hno : strToLower m.content = "!no") :
    HandleMessage s rs pend m o ml =
      { restaurants := rs ++ [c.NewName], pending := mapDelete pend m.channelID,
        replies := [Reply.forceAdded c.NewName (rs.length + 1)], oracleCalled := false } := by
  have h1 : (m.authorID == s.selfUserID) = false := beqFalseOfNe hself
  have hy : (strToLower m.content == "!yes") = false := by rw [hno]; rfl
  have hn : (strToLower m.content == "!no") = true := by rw [hno]; rfl
  simp only [HandleMessage, h1, Bool.false_eq_true, if_false, hpend, hy, hn, if_true,
    ForceAddRestaurant]
  simp

/-- Evaluation of the handler when a confirmation is pending and the content is
neither confirm-accept nor confirm-reject: only the re-prompt is sent; the
pending entry, the store and the oracle are untouched. -/
lemma handlePendingOther (s : Session) (rs : List String) (pend : PendingMap)
    (m : MessageCreate) (c : PendingConfirmation)
    (o : Except OracleError DuplicateCheckResponse) (ml : Except String Unit)
    (hself : m.authorID ≠ s.selfUserID)
    (hpend : List.lookup m.channelID pend = some c)
    (hny : strToLower m.content ≠ "!yes")
    (hnn : strToLower m.content ≠ "!no") :
    HandleMessage s rs pend m o ml =
      { restaurants := rs, pending := pend,
        replies := [Reply.promptYesNo], oracleCalled := false } := by
  have h1 : (m.authorID == s.selfUserID) = false := beqFalseOfNe hself
  have hy : (strToLower m.content == "!yes") = false := beqFalseOfNe hny
  have hn : (strToLower m.content == "!no") = false := beqFalseOfNe hnn
  simp only [HandleMessage, h1, Bool.false_eq_true, if_false, hpend, hy, hn]

/-- Evaluation of the handler on a confirm or reject input when no entry is
pending for the channel: the input matches no ordinary command either, so the
handler does nothing at all. -/
lemma handleConfirmNoPending (s : Session) (rs : List String) (pend : PendingMap)
    (m : MessageCreate)
    (o : Except OracleError DuplicateCheckResponse) (ml : Except String Unit)
    (hself : m.authorID ≠ s.selfUserID)
    (hpend : List.lookup m.channelID pend = none)
    (hres : strToLower m.content = "!yes" ∨ strToLower m.content = "!no") :
    HandleMessage s rs pend m o ml =
      { restaurants := rs, pending := pend, replies := [], oracleCalled := false } := by
  have h1 : (m.authorID == s.selfUserID) = false := beqFalseOfNe hself
  have hlen : m.content.data.length ≤ 4 := by
    rcases hres with h | h
    · have h2 : (strToLower m.content).data.length = ("!yes" : String).data.length := by rw [h]
      rw [strToLowerLength] at h2
      have h3 : ("!yes" : String).data.length = 4 := rfl
      omega
    · have h2 : (strToLower m.content).data.length = ("!no" : String).data.length := by rw [h]
      rw [strToLowerLength] at h2
      have h3 : ("!no" : String).data.length = 3 := rfl
      omega
  have hping : (m.content == "!ping") = false := by
    apply beqFalseOfNe
    intro he
    rcases hres with h | h <;> rw [he] at h <;> exact absurd h (by decide)
  have hlist : (m.content == "!list") = false := by
    apply beqFalseOfNe
    intro he
    rcases hres with h | h <;> rw [he] at h <;> exact absurd h (by decide)
  have hml : (m.content == "!ml") = false := by
    apply beqFalseOfNe
    intro he
    rcases hres with h | h <;> rw [he] at h <;> exact absurd h (by decide)
  have hrem : strStartsWith m.content "!remove \"" = false := by
    cases hb : strStartsWith m.content "!remove \"" with
    | false => rfl
    | true =>
      have h2 := strStartsWithLength m.content "!remove \"" hb
      have h3 : ("!remove \"" : String).data.length = 9 := rfl
      omega
  have hadd : strStartsWith m.content "!add \"" = false := by
    cases hb : strStartsWith m.content "!add \"" with
    | false => rfl
    | true =>
      have h2 := strStartsWithLength m.content "!add \"" hb
      have h3 : ("!add \"" : String).data.length = 6 := rfl
      omega
  simp only [HandleMessage, h1, Bool.false_eq_true, if_false, hpend, hping, hlist, hml,
    hrem, hadd, Bool.false_and]

/-- Folding response-object fields none of which matches `result` leaves the
accumulator unchanged. -/
lemma apiRespFoldNoMatch :
    ∀ (fields : List (String × Json)) (acc : DuplicateCheckResponse × Option String),
      (∀ kv ∈ fields, keyMatches kv.1 "result" = false) →
      fields.foldl apiRespStep acc = acc := by
  intro fields
  induction fields with
  | nil => intro acc _; rfl
  | cons kv fields ih =>
    intro acc h
    rw [List.foldl_cons]
    have hk : keyMatches kv.1 "result" = false := h kv (by simp)
    have hstep : apiRespStep acc kv = acc := by
      simp only [apiRespStep, hk, Bool.false_eq_true, if_false]
    rw [hstep]
    exact ih acc (fun kv2 h2 => h kv2 (by simp [h2]))

/-- C1: On an add command with a nonempty candidate name and no pending entry
in the channel, the handler commits the candidate if and only if the oracle
verdict has `IsDuplicate = false`: on `false` it appends the candidate to the
store and replies `added` with the new count; on `true` it commits nothing,
installs the pending confirmation holding the channel, the candidate name and
the matched name, and sends the confirmation prompt. -/
theorem claim1_add_commits_iff_not_duplicate
    (s : Session) (rs : List String) (pend : PendingMap) (m : MessageCreate)
    (v : DuplicateCheckResponse) (ml : Except String Unit) (name : String)
    (hself : m.authorID ≠ s.selfUserID)
    (hpend : List.lookup m.channelID pend = none)
    (hcontent : m.content = "!add \"" ++ name ++ "\"")
    (hname : name ≠ "") :
    (v.IsDuplicate = false →
      HandleMessage s rs pend m (Except.ok v) ml =
        { restaurants := rs ++ [name], pending := pend,
          replies := [Reply.added name (rs.length + 1)], oracleCalled := true }) ∧
    (v.IsDuplicate = true →
      HandleMessage s rs pend m (Except.ok v) ml =
        { restaurants := rs,
          pending := mapInsert pend m.channelID { NewName := name, MatchedName := v.MatchedName },
          replies := [Reply.duplicatePrompt name v.MatchedName], oracleCalled := true } ∧
      List.lookup m.channelID (HandleMessage s rs pend m (Except.ok v) ml).pending
        = some { NewName := name, MatchedName := v.MatchedName }) := by
  constructor
  · intro hd
    exact handleAddOk s rs pend m v ml name hself hpend hcontent hname hd
  · intro hd
    have h := handleAddDup s rs pend m v ml name hself hpend hcontent hname hd
    exact ⟨h, by rw [h]; exact lookupMapInsert pend m.channelID _⟩

/-- C1 witness: a clear verdict at a concrete input commits the candidate. -/
theorem claim1_witness :
    HandleMessage { selfUserID := "bot" } [] []
        { authorID := "user", channelID := "chan1", content := "!add \"Cafe X\"" }
        (Except.ok { IsDuplicate := false, MatchedName := "", SimilarityScore := 0 })
        (Except.ok ()) =
      { restaurants := ["Cafe X"], pending := [],
        replies := [Reply.added "Cafe X" 1], oracleCalled := true } :=
  (claim1_add_commits_iff_not_duplicate { selfUserID := "bot" } [] []
      { authorID := "user", channelID := "chan1", content := "!add \"Cafe X\"" }
      { IsDuplicate := false, MatchedName := "", SimilarityScore := 0 }
      (Except.ok ()) "Cafe X" (by decide) rfl (by decide) (by decide)).1 rfl

/-- C2 counterexample: with the name present twice, `RemoveRestaurant` removes
both occurrences and returns count 0, not the first-match-only removal the
claim states (which would leave `["A"]` and return count 1). -/
theorem claim2_counterexample :
    RemoveRestaurant ["A", "A"] "A" = ([], 0, none) ∧
    (RemoveRestaurant ["A", "A"] "A").1 ≠ ["A"] := by
  decide

/-- C2 (amended): `RemoveRestaurant` removes every exact match of the name,
keeping all non-matching elements in their original order, and returns the new
count; it fails with the not-found error exactly when no record matches. -/
theorem claim2_remove_removes_all_matches (rs : List String) (name : String) :
    (name ∈ rs →
      RemoveRestaurant rs name =
        (rs.filter (fun r => !(r == name)),
         (rs.filter (fun r => !(r == name))).length, none)) ∧
    (name ∉ rs →
      RemoveRestaurant rs name = (rs, rs.length, some (DBError.notFound name))) := by
  constructor
  · intro h
    have ha : rs.any (fun r => r == name) = true := by
      rw [List.any_eq_true]
      exact ⟨name, h, by simp⟩
    simp only [RemoveRestaurant, removeScanEq, ha, if_true]
  · intro h
    have ha : rs.any (fun r => r == name) = false := by
      rw [Bool.eq_false_iff]
      intro hc
      rw [List.any_eq_true] at hc
      rcases hc with ⟨x, hx, he⟩
      rw [beq_iff_eq] at he
      exact h (he ▸ hx)
    simp only [RemoveRestaurant, removeScanEq, ha, Bool.false_eq_true, if_false]

/-- C2 witness: both occurrences of a duplicated name are removed. -/
theorem claim2_witness :
    RemoveRestaurant ["A", "B", "A"] "A" = (["B"], 1, none) :=
  (claim2_remove_removes_all_matches ["A", "B", "A"] "A").1 (by decide)

/-- C3: With a pending confirmation installed for the channel, a confirm-reject
input commits the originally proposed candidate by an unconditional append —
with no oracle call, whatever the current record list is — removes the pending
entry, and reports the new count. -/
theorem claim3_reject_commits_unconditionally
    (s : Session) (rs : List String) (pend : PendingMap) (m : MessageCreate)
    (c : PendingConfirmation)
    (o : Except OracleError DuplicateCheckResponse) (ml : Except String Unit)
    (hself : m.authorID ≠ s.selfUserID)
    (hpend : List.lookup m.channelID pend = some c)
    (hno : strToLower m.content = "!no") :
    HandleMessage s rs pend m o ml =
      { restaurants := rs ++ [c.NewName], pending := mapDelete pend m.channelID,
        replies := [Reply.forceAdded c.NewName (rs.length + 1)], oracleCalled := false } ∧
    List.lookup m.channelID (HandleMessage s rs pend m o ml).pending = none := by
  have h := handleNo s rs pend m c o ml hself hpend hno
  exact ⟨h, by rw [h]; exact lookupMapDelete pend m.channelID⟩

/-- C3 witness: the scenario from the specification, list `["Pizza Place"]`
with pending candidate `"Pizza Plaza"`, resolves on reject to both names and
count 2. -/
theorem claim3_witness :
    HandleMessage { selfUserID := "bot" } ["Pizza Place"]
        [("scope1", { NewName := "Pizza Plaza", MatchedName := "Pizza Place" })]
        { authorID := "user", channelID := "scope1", content := "!no" }
        (Except.error OracleError.transportFailure) (Except.ok ()) =
      { restaurants := ["Pizza Place", "Pizza Plaza"], pending := [],
        replies := [Reply.forceAdded "Pizza Plaza" 2], oracleCalled := false } :=
  (claim3_reject_commits_unconditionally { selfUserID := "bot" } ["Pizza Place"]
      [("scope1", { NewName := "Pizza Plaza", MatchedName := "Pizza Place" })]
      { authorID := "user", channelID := "scope1", content := "!no" }
      { NewName := "Pizza Plaza", MatchedName := "Pizza Place" }
      (Except.error OracleError.transportFailure) (Except.ok ())
      (by decide) rfl (by decide)).1

/-- C4: When the duplicate check fails — read failure, transport failure, or an
undecodable body all yield an error — the add command aborts with a failure
reply, the record list is unchanged, and no pending confirmation is installed
for the scope. -/
theorem claim4_oracle_failure_fail_closed
    (s : Session) (rs : List String) (pend : PendingMap) (m : MessageCreate)
    (e : OracleError) (ml : Except String Unit) (name : String)
    (hself : m.authorID ≠ s.selfUserID)
    (hpend : List.lookup m.channelID pend = none)
    (hcontent : m.content = "!add \"" ++ name ++ "\"")
    (hname : name ≠ "") :
    HandleMessage s rs pend m (Except.error e) ml =
      { restaurants := rs, pending := pend,
        replies := [Reply.addFailed], oracleCalled := true } ∧
    (∀ msg post2, CheckForDuplicate (Except.error msg) post2
      = Except.error OracleError.storageUnavailable) ∧
    (∀ lst msg, CheckForDuplicate (Except.ok lst) (Except.error msg)
      = Except.error OracleError.transportFailure) ∧
    (∀ lst, CheckForDuplicate (Except.ok lst) (Except.ok none)
      = Except.error (OracleError.decodeFailure "body is not valid JSON")) ∧
    (∀ lst j msg, unmarshalApiResp j = Except.error msg →
      CheckForDuplicate (Except.ok lst) (Except.ok (some j))
        = Except.error (OracleError.decodeFailure msg)) := by
  refine ⟨handleAddError s rs pend m e ml name hself hpend hcontent hname, ?_, ?_, ?_, ?_⟩
  · intro msg post2; rfl
  · intro lst msg; rfl
  · intro lst; rfl
  · intro lst j msg h
    simp only [CheckForDuplicate, h]

/-- C4 witness: a transport failure at a concrete input leaves the list
unchanged and installs nothing. -/
theorem claim4_witness :
    HandleMessage { selfUserID := "bot" } ["Pizza Place"] []
        { authorID := "user", channelID := "chan1", content := "!add \"Pizza Plaza\"" }
        (Except.error OracleError.transportFailure) (Except.ok ()) =
      { restaurants := ["Pizza Place"], pending := [],
        replies := [Reply.addFailed], oracleCalled := true } :=
  (claim4_oracle_failure_fail_closed { selfUserID := "bot" } ["Pizza Place"] []
      { authorID := "user", channelID := "chan1", content := "!add \"Pizza Plaza\"" }
      OracleError.transportFailure (Except.ok ()) "Pizza Plaza"
      (by decide) rfl (by decide) (by decide)).1

/-- C5: With a pending entry in the channel, one confirm or reject input
consumes it — afterwards no entry is pending for the channel — and a second
confirm or reject in the same channel is dispatched as an ordinary command:
it matches nothing, changes nothing, sends nothing and calls no oracle. -/
theorem claim5_resolved_exactly_once
    (s : Session) (rs : List String) (pend : PendingMap) (m m2 : MessageCreate)
    (c : PendingConfirmation) (o1 o2 : Except OracleError DuplicateCheckResponse)
    (ml1 ml2 : Except String Unit)
    (hself : m.authorID ≠ s.selfUserID)
    (hpend : List.lookup m.channelID pend = some c)
    (hres : strToLower m.content = "!yes" ∨ strToLower m.content = "!no")
    (hself2 : m2.authorID ≠ s.selfUserID)
    (hchan : m2.channelID = m.channelID)
    (hres2 : strToLower m2.content = "!yes" ∨ strToLower m2.content = "!no") :
    List.lookup m.channelID (HandleMessage s rs pend m o1 ml1).pending = none ∧
    HandleMessage s (HandleMessage s rs pend m o1 ml1).restaurants
        (HandleMessage s rs pend m o1 ml1).pending m2 o2 ml2 =
      { restaurants := (HandleMessage s rs pend m o1 ml1).restaurants,
        pending := (HandleMessage s rs pend m o1 ml1).pending,
        replies := [], oracleCalled := false } := by
  have hp : (HandleMessage s rs pend m o1 ml1).pending = mapDelete pend m.channelID := by
    rcases hres with h | h
    · rw [handleYes s rs pend m c o1 ml1 hself hpend h]
    · rw [handleNo s rs pend m c o1 ml1 hself hpend h]
  have h1 : List.lookup m.channelID (HandleMessage s rs pend m o1 ml1).pending = none := by
    rw [hp]
    exact lookupMapDelete pend m.channelID
  refine ⟨h1, ?_⟩
  apply handleConfirmNoPending s _ _ m2 o2 ml2 hself2 _ hres2
  rw [hchan]
  exact h1

/-- C5 witness: resolving once and confirming again at concrete inputs. -/
theorem claim5_witness :
    List.lookup "chan1"
      (HandleMessage { selfUserID := "bot" } []
          [("chan1", { NewName := "A", MatchedName := "B" })]
          { authorID := "user", channelID := "chan1", content := "!yes" }
          (Except.error OracleError.transportFailure) (Except.ok ())).pending = none ∧
    HandleMessage { selfUserID := "bot" }
        (HandleMessage { selfUserID := "bot" } []
            [("chan1", { NewName := "A", MatchedName := "B" })]
            { authorID := "user", channelID := "chan1", content := "!yes" }
            (Except.error OracleError.transportFailure) (Except.ok ())).restaurants
        (HandleMessage { selfUserID := "bot" } []
            [("chan1", { NewName := "A", MatchedName := "B" })]
            { authorID := "user", channelID := "chan1", content := "!yes" }
            (Except.error OracleError.transportFailure) (Except.ok ())).pending
        { authorID := "user", channelID := "chan1", content := "!no" }
        (Except.error OracleError.transportFailure) (Except.ok ()) =
      { restaurants :=
          (HandleMessage { selfUserID := "bot" } []
              [("chan1", { NewName := "A", MatchedName := "B" })]
              { authorID := "user", channelID := "chan1", content := "!yes" }
              (Except.error OracleError.transportFailure) (Except.ok ())).restaurants,
        pending :=
          (HandleMessage { selfUserID := "bot" } []
              [("chan1", { NewName := "A", MatchedName := "B" })]
              { authorID := "user", channelID := "chan1", content := "!yes" }
              (Except.error OracleError.transportFailure) (Except.ok ())).pending,
        replies := [], oracleCalled := false } :=
  claim5_resolved_exactly_once { selfUserID := "bot" } []
    [("chan1", { NewName := "A", MatchedName := "B" })]
    { authorID := "user", channelID := "chan1", content := "!yes" }
    { authorID := "user", channelID := "chan1", content := "!no" }
    { NewName := "A", MatchedName := "B" }
    (Except.error OracleError.transportFailure) (Except.error OracleError.transportFailure)
    (Except.ok ()) (Except.ok ())
    (by decide) rfl (Or.inl rfl) (by decide) rfl (Or.inr rfl)

/-- C7: While a confirmation is pending, any input that does not lowercase to
the confirm or reject command — ordinary commands included — only re-prompts:
the pending entry is kept as it was, the store is untouched, and the oracle is
not called. -/
theorem claim7_pending_other_input_reprompts
    (s : Session) (rs : List String) (pend : PendingMap) (m : MessageCreate)
    (c : PendingConfirmation)
    (o : Except OracleError DuplicateCheckResponse) (ml : Except String Unit)
    (hself : m.authorID ≠ s.selfUserID)
    (hpend : List.lookup m.channelID pend = some c)
    (hny : strToLower m.content ≠ "!yes")
    (hnn : strToLower m.content ≠ "!no") :
    HandleMessage s rs pend m o ml =
      { restaurants := rs, pending := pend,
        replies := [Reply.promptYesNo], oracleCalled := false } ∧
    List.lookup m.channelID (HandleMessage s rs pend m o ml).pending = some c := by
  have h := handlePendingOther s rs pend m c o ml hself hpend hny hnn
  exact ⟨h, by rw [h]; exact hpend⟩

/-- C7 witness: a pending channel receiving an otherwise-valid add command is
only re-prompted. -/
theorem claim7_witness :
    HandleMessage { selfUserID := "bot" } ["A"]
        [("chan1", { NewName := "X", MatchedName := "Y" })]
        { authorID := "user", channelID := "chan1", content := "!add \"Z\"" }
        (Except.ok { IsDuplicate := false, MatchedName := "", SimilarityScore := 0 })
        (Except.ok ()) =
      { restaurants := ["A"], pending := [("chan1", { NewName := "X", MatchedName := "Y" })],
        replies := [Reply.promptYesNo], oracleCalled := false } :=
  (claim7_pending_other_input_reprompts { selfUserID := "bot" } ["A"]
      [("chan1", { NewName := "X", MatchedName := "Y" })]
      { authorID := "user", channelID := "chan1", content := "!add \"Z\"" }
      { NewName := "X", MatchedName := "Y" }
      (Except.ok { IsDuplicate := false, MatchedName := "", SimilarityScore := 0 })
      (Except.ok ()) (by decide) rfl (by decide) (by decide)).1

/-- C8: With a pending confirmation, the confirm-accept input removes the
pending entry and sends only the no-op acknowledgment; the record store is
exactly what it was before, and the oracle is not called. -/
theorem claim8_accept_is_noop
    (s : Session) (rs : List String) (pend : PendingMap) (m : MessageCreate)
    (c : PendingConfirmation)
    (o : Except OracleError DuplicateCheckResponse) (ml : Except String Unit)
    (hself : m.authorID ≠ s.selfUserID)
    (hpend : List.lookup m.channelID pend = some c)
    (hyes : strToLower m.content = "!yes") :
    HandleMessage s rs pend m o ml =
      { restaurants := rs, pending := mapDelete pend m.channelID,
        replies := [Reply.willNotAdd c.NewName], oracleCalled := false } ∧
    (HandleMessage s rs pend m o ml).restaurants = rs ∧
    List.lookup m.channelID (HandleMessage s rs pend m o ml).pending = none := by
  have h := handleYes s rs pend m c o ml hself hpend hyes
  exact ⟨h, by rw [h], by rw [h]; exact lookupMapDelete pend m.channelID⟩

/-- C8 witness: accepting at a concrete input writes nothing. -/
theorem claim8_witness :
    HandleMessage { selfUserID := "bot" } ["A"]
        [("chan1", { NewName := "X", MatchedName := "Y" })]
        { authorID := "user", channelID := "chan1", content := "!YES" }
        (Except.error OracleError.transportFailure) (Except.ok ()) =
      { restaurants := ["A"], pending := [],
        replies := [Reply.willNotAdd "X"], oracleCalled := false } :=
  (claim8_accept_is_noop { selfUserID := "bot" } ["A"]
      [("chan1", { NewName := "X", MatchedName := "Y" })]
      { authorID := "user", channelID := "chan1", content := "!YES" }
      { NewName := "X", MatchedName := "Y" }
      (Except.error OracleError.transportFailure) (Except.ok ())
      (by decide) rfl (by decide)).1

/-- C9: On a list not containing the name, `RemoveRestaurant` fails with the
not-found error and the persisted list is returned exactly unchanged. -/
theorem claim9_remove_not_found_unchanged (rs : List String) (name : String)
    (h : name ∉ rs) :
    RemoveRestaurant rs name = (rs, rs.length, some (DBError.notFound name)) := by
  have ha : rs.any (fun r => r == name) = false := by
    rw [Bool.eq_false_iff]
    intro hc
    rw [List.any_eq_true] at hc
    rcases hc with ⟨x, hx, he⟩
    rw [beq_iff_eq] at he
    exact h (he ▸ hx)
  simp only [RemoveRestaurant, removeScanEq, ha, Bool.false_eq_true, if_false]

/-- C9 witness: removing an absent name at a concrete input. -/
theorem claim9_witness :
    RemoveRestaurant ["A"] "B" = (["A"], 1, some (DBError.notFound "B")) :=
  claim9_remove_not_found_unchanged ["A"] "B" (by decide)

/-- C10: A message authored by the bot's own account is ignored entirely: no
reply, no store change, no oracle call, and the pending map — resolved or
re-prompted for no channel — is exactly what it was, whatever the content. -/
theorem claim10_self_messages_ignored
    (s : Session) (rs : List String) (pend : PendingMap) (m : MessageCreate)
    (o : Except OracleError DuplicateCheckResponse) (ml : Except String Unit)
    (h : m.authorID = s.selfUserID) :
    HandleMessage s rs pend m o ml =
      { restaurants := rs, pending := pend, replies := [], oracleCalled := false } := by
  simp [HandleMessage, h]

/-- C10 witness: the bot's own confirm input while a confirmation is pending
changes nothing. -/
theorem claim10_witness :
    HandleMessage { selfUserID := "bot" } ["A"]
        [("chan1", { NewName := "X", MatchedName := "Y" })]
        { authorID := "bot", channelID := "chan1", content := "!yes" }
        (Except.error OracleError.transportFailure) (Except.ok ()) =
      { restaurants := ["A"], pending := [("chan1", { NewName := "X", MatchedName := "Y" })],
        replies := [], oracleCalled := false } :=
  claim10_self_messages_ignored { selfUserID := "bot" } ["A"]
    [("chan1", { NewName := "X", MatchedName := "Y" })]
    { authorID := "bot", channelID := "chan1", content := "!yes" }
    (Except.error OracleError.transportFailure) (Except.ok ()) rfl

/-- C6 counterexample: a valid-JSON body whose `is_duplicate` field is mistyped
(a number instead of a bool) makes the duplicate check fail with a decode
error, instead of succeeding with the field defaulted to `false` as the claim
states. -/
theorem claim6_counterexample :
    CheckForDuplicate (Except.ok ["Pizza Place"])
        (Except.ok (some (Json.obj [("result", Json.obj [("is_duplicate", Json.num 1)])])))
      = Except.error (OracleError.decodeFailure
          "cannot unmarshal value into field is_duplicate of type bool") := rfl

/-- C6 (amended): decoding follows the typed struct contract: a body whose
fields are absent (or `null`) decodes to the zero-valued verdict, present
well-typed fields are extracted, but a mistyped `result` or inner field, or a
non-object body, is a decode error rather than a zero-value default. -/
theorem claim6_typed_decode :
    (∀ fields : List (String × Json),
      (∀ kv ∈ fields, keyMatches kv.1 "result" = false) →
      unmarshalApiResp (Json.obj fields) = Except.ok zeroResp) ∧
    (∀ (b : Bool) (mn : String) (q : Rat),
      unmarshalApiResp (Json.obj [("result", Json.obj
          [("is_duplicate", Json.bool b), ("matched_name", Json.str mn),
           ("similarity_score", Json.num q)])])
        = Except.ok { IsDuplicate := b, MatchedName := mn, SimilarityScore := q }) ∧
    unmarshalApiResp (Json.obj [("result", Json.obj [])]) = Except.ok zeroResp ∧
    unmarshalApiResp (Json.obj [("result", Json.num 1)])
      = Except.error "cannot unmarshal value into field result of type DuplicateCheckResponse" ∧
    unmarshalApiResp (Json.str "x")
      = Except.error "cannot unmarshal value into apiResp struct" := by
  refine ⟨?_, ?_, rfl, rfl, rfl⟩
  · intro fields h
    simp only [unmarshalApiResp]
    rw [apiRespFoldNoMatch fields (zeroResp, none) h]
  · intro b mn q
    rfl

/-- C6 witness: a response object with no `result` key decodes to the
zero-valued verdict. -/
theorem claim6_witness :
    unmarshalApiResp (Json.obj [("task", Json.str "check_duplicate")]) = Except.ok zeroResp :=
  claim6_typed_decode.1 [("task", Json.str "check_duplicate")] (by decide)
